import Mathlib

/-
Verification of the multi-objective AQI routing engine
(src/src/services/GraphRoutingService.js and src/src/services/AQIService.js).

JavaScript numbers are modelled as rationals (ℚ); machine floating point is
not modelled, so every arithmetic fact below is about exact rational
arithmetic.  JavaScript Map objects are modelled as association lists with
Map semantics: set replaces an existing key in place and appends new keys,
preserving insertion order.  Asynchronous provider calls are modelled as
explicit oracle functions, and stateful code (caches, request counters) as
explicit state passing.
-/

set_option autoImplicit false

/-- Association-list lookup, returning the first binding of the key
(JavaScript Map.get). -/
def lookupA {κ β : Type} [DecidableEq κ] : List (κ × β) → κ → Option β
  | [], _ => none
  | (k', v) :: rest, k => if k' = k then some v else lookupA rest k

/-- Association-list update with JavaScript Map.set semantics: replace the
binding in place when the key is present, append otherwise. -/
def mapSet {κ β : Type} [DecidableEq κ] : List (κ × β) → κ → β → List (κ × β)
  | [], k, v => [(k, v)]
  | (k', v') :: rest, k, v =>
    if k' = k then (k, v) :: rest else (k', v') :: mapSet rest k v

/-- Association-list deletion (JavaScript Map.delete): removes every binding
of the key; on maps with unique keys this is the Map behaviour. -/
def mapDelete {κ β : Type} [DecidableEq κ] : List (κ × β) → κ → List (κ × β)
  | [], _ => []
  | (k', v) :: rest, k =>
    if k' = k then mapDelete rest k else (k', v) :: mapDelete rest k

/-- Route metrics produced by findSingleObjectiveRoute and consumed by the
Pareto sweep (fields of the returned route object not inspected by the sweep
or the filter, such as the coordinate list, are omitted). -/
structure RouteResult where
  totalDistance : ℚ
  totalExposure : ℚ
deriving DecidableEq, Repr

/-- Embedding of GraphRoutingService.isDominatedRoute (lines 373-383): despite
its name, the source computes relative distance and exposure differences
against each existing route and reports true when both differences are below
the 5% threshold, i.e. it is a similarity test.  Division by zero (when both
compared quantities are 0) yields 0 in ℚ where JavaScript yields NaN; no
claim below exercises that corner. -/
def isDominatedRoute (newRoute : RouteResult) (existingRoutes : List RouteResult) : Bool :=
  existingRoutes.any fun existing =>
    let distanceDiff := |existing.totalDistance - newRoute.totalDistance| /
      max existing.totalDistance newRoute.totalDistance
    let exposureDiff := |existing.totalExposure - newRoute.totalExposure| /
      max existing.totalExposure newRoute.totalExposure
    decide (distanceDiff < 5/100) && decide (exposureDiff < 5/100)

/-- Fixed weight combinations of the sweep (lines 249-255). -/
def weightCombinations : List (ℚ × ℚ) :=
  [(1, 0), (8/10, 2/10), (6/10, 4/10), (4/10, 6/10), (0, 1)]

/-- Composite preference score used to rank surviving routes
(lines 276-280). -/
def routeScore (aqiWeight distanceWeight : ℚ) (r : RouteResult) : ℚ :=
  r.totalExposure * aqiWeight + r.totalDistance * distanceWeight / 1000

/-- Stable insertion of an element into a list sorted by the strict
comparison lt: the element is placed before the first strictly greater
entry, after any equal ones. -/
def insertByLt {α : Type} (lt : α → α → Bool) (x : α) : List α → List α
  | [] => [x]
  | y :: ys => if lt x y then x :: y :: ys else y :: insertByLt lt x ys

/-- Stable ascending sort modelling JavaScript Array.sort with the numeric
comparator (a, b) => score(a) - score(b) (Array.sort is required to be
stable). -/
def sortByLt {α : Type} (lt : α → α → Bool) (l : List α) : List α :=
  l.foldl (fun acc x => insertByLt lt x acc) []

/-- Embedding of GraphRoutingService.findParetoOptimalRoutes (lines 220-284).
The per-combination call to findSingleObjectiveRoute is abstracted as the
function solve, whose value none covers both a null return (no path) and an
exception absorbed by the try/catch of the loop; everything the sweep itself
does (dominance filtering, ranking, truncation) is embedded directly.  The
maxAlternatives, aqiWeight and distanceWeight preferences default to 5,
0.7 and 0.3 in the source.  The loop body of the sweep is the separate
definition sweepStep. -/
def sweepStep (solve : ℚ × ℚ → Option RouteResult)
    (acc : List RouteResult) (w : ℚ × ℚ) : List RouteResult :=
  match solve w with
  | some route => if isDominatedRoute route acc then acc else acc ++ [route]
  | none => acc

/-- Main body of findParetoOptimalRoutes; see the comment on sweepStep. -/
def findParetoOptimalRoutes (solve : ℚ × ℚ → Option RouteResult)
    (maxAlternatives : ℕ) (aqiWeight distanceWeight : ℚ) : List RouteResult :=
  let paretoRoutes := weightCombinations.foldl (sweepStep solve) []
  let sorted := sortByLt
    (fun a b => decide (routeScore aqiWeight distanceWeight a <
      routeScore aqiWeight distanceWeight b)) paretoRoutes
  sorted.take maxAlternatives

/-- Pareto dominance as stated by the specification: a is no worse than b in
both objectives and strictly better in at least one. -/
def dominates (a b : RouteResult) : Prop :=
  a.totalDistance ≤ b.totalDistance ∧ a.totalExposure ≤ b.totalExposure ∧
    (a.totalDistance < b.totalDistance ∨ a.totalExposure < b.totalExposure)

/-- Concrete solver outcome exhibiting the defect of the dominance filter:
the pure-AQI combination yields a short clean route and the next combination
a route ten times worse in both objectives; the remaining combinations find
no path. -/
def solveTwoRoutes : ℚ × ℚ → Option RouteResult := fun w =>
  if w = (1, 0) then some ⟨100, 100⟩
  else if w = (8/10, 2/10) then some ⟨1000, 1000⟩
  else none

/-- Solver outcome for the C9 witness: only the pure-distance combination
finds a path. -/
def solveOnlyPureDistance : ℚ × ℚ → Option RouteResult := fun w =>
  if w = (0, 1) then some ⟨500, 40⟩ else none

/-- Data-source tag of an AQI record (AQIService.js uses string literals). -/
inductive AQISource where
  | openweather
  | iqair
  | waqi
  | aggregated
  | fallback
deriving DecidableEq, Repr

/-- Confidence tag of an AQI record; error records carry no confidence field,
modelled as none at the use sites. -/
inductive AQIConfidence where
  | low
  | medium
  | high
deriving DecidableEq, Repr

/-- Pollutant components of an AQI record; absent (undefined or null in
JavaScript) values are none. -/
structure AQIComponents where
  pm2_5 : Option ℚ
  pm10 : Option ℚ
  o3 : Option ℚ
  no2 : Option ℚ
deriving DecidableEq, Repr

/-- Empty components object (every field absent). -/
def noComponents : AQIComponents := ⟨none, none, none, none⟩

/-- Normalized AQI record as produced by the provider fetchers, the
aggregator and the fallback paths of AQIService.js.  Fields not read by any
code under verification (timestamp, rawValue, station, sources,
individualValues, error) are omitted. -/
structure AQIData where
  value : ℚ
  source : AQISource
  confidence : Option AQIConfidence
  components : AQIComponents
deriving DecidableEq, Repr

/-- Fallback record returned when no valid provider response remains
(AQIService.js line 272) and by the catch of getAQI (line 103). -/
def fallbackAQI : AQIData :=
  { value := 3, source := .fallback, confidence := some .low,
    components := noComponents }

/-- Embedding of AQIService.convertUSAQItoScale (lines 354-362).  The
JavaScript test (!usAqi || usAqi < 0) is true for an absent value and for 0,
both mapped to the sentinel -1. -/
def convertUSAQItoScale (usAqi : Option ℚ) : ℚ :=
  match usAqi with
  | none => -1
  | some v =>
    if v = 0 ∨ v < 0 then -1
    else if v ≤ 50 then 1
    else if v ≤ 100 then 2
    else if v ≤ 150 then 3
    else if v ≤ 200 then 4
    else 5

/-- Embedding of the validResults computation of getAggregatedAQI
(lines 264-268): keep each provider record whose value is positive. -/
def validResults (openweatherData iqairData waqiData : AQIData) : List AQIData :=
  [if openweatherData.value > 0 then some openweatherData else none,
   if iqairData.value > 0 then some iqairData else none,
   if waqiData.value > 0 then some waqiData else none].filterMap id

/-- Embedding of the per-result weight assignment of getAggregatedAQI
(lines 281-293), written with the same sequence of conditional updates as
the source. -/
def computeWeight (result : AQIData) : ℚ :=
  let weight : ℚ := 1
  let weight := if result.confidence = some .high then weight * (15/10) else weight
  let weight := if result.confidence = some .low then weight * (7/10) else weight
  let weight := if result.source = .waqi then weight * (13/10) else weight
  let weight := if result.source = .iqair then weight * (12/10) else weight
  weight

/-- Per-component aggregation of aggregateComponents (lines 323-349) for one
component key: values that are null or undefined are skipped; the source
initializes or resets the running sum whenever the accumulated value is
falsy (the !components[key] test), which this embedding reproduces. -/
def aggregateOneComponent (vals : List (Option ℚ)) : Option ℚ :=
  let state := vals.foldl
    (fun (acc : Option (ℚ × ℚ)) v =>
      match v with
      | none => acc
      | some x =>
        match acc with
        | none => some (x, 1)
        | some (s, c) => if s = 0 then some (x, 1) else some (s + x, c + 1))
    none
  match state with
  | none => none
  | some (s, c) => some (s / c)

/-- Embedding of AQIService.aggregateComponents (lines 323-349) over the four
component keys carried by provider records. -/
def aggregateComponents (results : List AQIData) : AQIComponents :=
  { pm2_5 := aggregateOneComponent (results.map (fun r => r.components.pm2_5)),
    pm10 := aggregateOneComponent (results.map (fun r => r.components.pm10)),
    o3 := aggregateOneComponent (results.map (fun r => r.components.o3)),
    no2 := aggregateOneComponent (results.map (fun r => r.components.no2)) }

/-- Math.round semantics on rationals: floor of x + 1/2 (this is exactly the
JavaScript Math.round, which rounds halves toward positive infinity). -/
def jsRound (q : ℚ) : ℤ := ⌊q + 1/2⌋

/-- Aggregation over the valid result list of getAggregatedAQI
(lines 271-318): empty list falls back, a single result is returned
unchanged, and two or more results are combined by the confidence- and
source-weighted rounded mean. -/
def aggregateValid (valid : List AQIData) : AQIData :=
  match valid with
  | [] => fallbackAQI
  | [single] => single
  | _ =>
    let weights := valid.map computeWeight
    let totalWeight := weights.foldl (· + ·) 0
    let weightedSum := (valid.zip weights).foldl
      (fun sum p => sum + p.1.value * p.2) 0
    let aggregatedValue : ℚ := (jsRound (weightedSum / totalWeight) : ℤ)
    { value := aggregatedValue, source := .aggregated,
      confidence := some .high, components := aggregateComponents valid }

/-- Embedding of the pure aggregation core of AQIService.getAggregatedAQI
(lines 255-318), taking the three already-awaited provider records.  Fields
of the aggregated record not read by any claim (timestamp, sources,
individualValues) are omitted. -/
def getAggregatedAQI (openweatherData iqairData waqiData : AQIData) : AQIData :=
  aggregateValid (validResults openweatherData iqairData waqiData)

/-- Weight formula as worded by the specification and the claim: base weight
1.0, multiplied by 1.5 for high confidence, by 0.7 for low confidence, and
by the per-provider trust factors 1.3 (waqi) and 1.2 (iqair). -/
def trustWeight (r : AQIData) : ℚ :=
  (if r.confidence = some .high then (15/10 : ℚ) else 1) *
  (if r.confidence = some .low then (7/10 : ℚ) else 1) *
  (if r.source = .waqi then (13/10 : ℚ) else 1) *
  (if r.source = .iqair then (12/10 : ℚ) else 1)

/-- Sample provider records for the C7 witness: a medium-confidence
openweather reading of 2, a failed iqair fetch, and a high-confidence waqi
reading of 4. -/
def owSample : AQIData :=
  { value := 2, source := .openweather, confidence := some .medium,
    components := noComponents }

def iqSampleFailed : AQIData :=
  { value := -1, source := .iqair, confidence := none,
    components := noComponents }

def waSample : AQIData :=
  { value := 4, source := .waqi, confidence := some .high,
    components := noComponents }

/-- Geographic coordinate. -/
structure Coord where
  lat : ℚ
  lng : ℚ
deriving DecidableEq, Repr

/-- Per-edge data stored in the edgeWeights map by buildRoadGraph
(GraphRoutingService.js lines 67-83): haversine distance in meters, midpoint
coordinate, and travel time at the assumed 13.89 m/s. -/
structure EdgeData where
  distance : ℚ
  midpoint : Coord
  estimatedTravelTime : ℚ
deriving DecidableEq, Repr

/-- Pollutant kind passed to categorizePollutuantLevel (the source spells the
function name this way); other covers every string except pm2_5 and pm10. -/
inductive PollType where
  | pm2_5
  | pm10
  | other
deriving DecidableEq, Repr

/-- Embedding of GraphRoutingService.categorizePollutuantLevel
(lines 193-212).  The JavaScript guard (!value || value < 0) is true for 0
and for negative values (NaN and undefined are outside the model). -/
def categorizePollutuantLevel (value : ℚ) (ty : PollType) : ℚ :=
  if value = 0 ∨ value < 0 then 1
  else match ty with
  | .pm2_5 =>
    if value ≤ 12 then 1
    else if value ≤ 354/10 then 2
    else if value ≤ 554/10 then 3
    else if value ≤ 1504/10 then 4
    else 5
  | .pm10 =>
    if value ≤ 54 then 1
    else if value ≤ 154 then 2
    else if value ≤ 254 then 3
    else if value ≤ 354 then 4
    else 5
  | .other => 3

/-- Embedding of GraphRoutingService.calculateExposureDose (lines 149-188).
The edgeWeights map is passed as a lookup function keyed by node-id pairs
(the source uses the string "n1_n2", injectively determined by the pair),
and the awaited AQIService.getAQI call as the oracle fetchAQI whose error
case models a thrown exception, handled by the catch branch.  The JavaScript
expression aqiData.value || 3 replaces only a zero value (NaN is outside the
model); the truthiness test on components.pm2_5 makes a present zero value
skip the PM2.5 penalty. -/
def calculateExposureDose (edgeWeights : ℕ × ℕ → Option EdgeData)
    (fetchAQI : ℚ → ℚ → Except Unit AQIData) (edgeKey : ℕ × ℕ) : ℚ :=
  match edgeWeights edgeKey with
  | none => 0
  | some edgeData =>
    match fetchAQI edgeData.midpoint.lat edgeData.midpoint.lng with
    | .error _ => 3 * (edgeData.estimatedTravelTime / 60)
    | .ok aqiData =>
      let aqi := if aqiData.value = 0 then 3 else aqiData.value
      let travelTimeMinutes := edgeData.estimatedTravelTime / 60
      let exposureDose := aqi * travelTimeMinutes
      let exposureDose :=
        if aqiData.confidence = some .low then exposureDose * (11/10)
        else if aqiData.confidence = some .high then exposureDose * (95/100)
        else exposureDose
      let exposureDose :=
        match aqiData.components.pm2_5 with
        | some v =>
          if v ≠ 0 ∧ 4 ≤ categorizePollutuantLevel v .pm2_5 then
            exposureDose * (12/10)
          else exposureDose
        | none => exposureDose
      max exposureDose (1/10)

/-- Multiplier applied by calculateExposureDose for a high PM2.5 component
(1.2 when a nonzero pm2_5 component of category at least 4 is present,
1 otherwise). -/
def pm25Factor (aqiData : AQIData) : ℚ :=
  match aqiData.components.pm2_5 with
  | some v =>
    if v ≠ 0 ∧ 4 ≤ categorizePollutuantLevel v .pm2_5 then 12/10 else 1
  | none => 1

/-- Confidence multiplier applied by calculateExposureDose (1.1 for low
confidence, 0.95 for high, 1 otherwise). -/
def confidenceFactor (aqiData : AQIData) : ℚ :=
  if aqiData.confidence = some .low then 11/10
  else if aqiData.confidence = some .high then 95/100
  else 1

/-- Short edge (travel time 0.6 s, i.e. 0.01 min) used to exercise the 0.1
minimum-dose floor. -/
def tinyEdge : EdgeData :=
  { distance := 25/3, midpoint := ⟨0, 0⟩, estimatedTravelTime := 3/5 }

/-- Edge-weight map holding only the edge (0, 1). -/
def edgeWeightsTiny : ℕ × ℕ → Option EdgeData := fun edgeKey =>
  if edgeKey = (0, 1) then some tinyEdge else none

/-- Clean medium-confidence level-1 AQI reading. -/
def cleanAirData : AQIData :=
  { value := 1, source := .openweather, confidence := some .medium,
    components := noComponents }

/-- AQI oracle answering cleanAirData everywhere. -/
def fetchCleanAir : ℚ → ℚ → Except Unit AQIData := fun _ _ =>
  Except.ok cleanAirData

/-- Adjacency-list graph over node ids as built by buildRoadGraph and
iterated by findSingleObjectiveRoute: each entry pairs a node with its
neighbor list (neighbor id, edge distance in meters).  JavaScript Map keys
are unique, so well-formed graphs bind each node once. -/
abbrev RoadGraph : Type := List (ℕ × List (ℕ × ℚ))

/-- Composite weight assigned to one directed edge by the graph-construction
loop of findSingleObjectiveRoute (lines 296-334): exposure defaults to 0 for
a missing edgeExposures entry; when edge data exists, the AQI threshold is
active (maxAQIThreshold < 5) and the edge AQI exceeds it, the exposure is
multiplied by the 10x penalty before normalization, otherwise the normal
normalization by 10 applies; both branches floor the weight at 0.001.  The
awaited getAQIWithCache call for the edge midpoint is abstracted as the
function edgeAQI, and the edgeWeights map as a lookup function on node-id
pairs. -/
def edgeCompositeWeight (edgeExposures : ℕ × ℕ → Option ℚ)
    (edgeWeights : ℕ × ℕ → Option EdgeData) (edgeAQI : ℕ × ℕ → ℚ)
    (aqiW distW maxAQIThreshold : ℚ) (nodeId neighborId : ℕ)
    (distance : ℚ) : ℚ :=
  let exposure := (edgeExposures (nodeId, neighborId)).getD 0
  match edgeWeights (nodeId, neighborId) with
  | some _ =>
    if maxAQIThreshold < 5 ∧ edgeAQI (nodeId, neighborId) > maxAQIThreshold then
      let highAQIPenalty : ℚ := 10
      let normalizedExposure := (exposure * highAQIPenalty) / 10
      let normalizedDistance := distance / 1000
      max (normalizedExposure * aqiW + normalizedDistance * distW) (1/1000)
    else
      let normalizedExposure := exposure / 10
      let normalizedDistance := distance / 1000
      max (normalizedExposure * aqiW + normalizedDistance * distW) (1/1000)
  | none =>
    let normalizedExposure := exposure / 10
    let normalizedDistance := distance / 1000
    max (normalizedExposure * aqiW + normalizedDistance * distW) (1/1000)

/-- Weighted graph constructed by findSingleObjectiveRoute (lines 290-335):
every node and every neighbor entry of the road graph is carried over with
its composite weight; no edge is removed by thresholding. -/
def buildWeightedGraph (edgeExposures : ℕ × ℕ → Option ℚ)
    (edgeWeights : ℕ × ℕ → Option EdgeData) (edgeAQI : ℕ × ℕ → ℚ)
    (aqiW distW maxAQIThreshold : ℚ) (roadGraph : RoadGraph) : RoadGraph :=
  roadGraph.map fun entry =>
    (entry.1, entry.2.map fun nb =>
      (nb.1, edgeCompositeWeight edgeExposures edgeWeights edgeAQI
        aqiW distW maxAQIThreshold entry.1 nb.1 nb.2))

/-- Existence of a directed edge between two nodes of an adjacency-list
graph (weights are not inspected). -/
def hasEdgeB (g : RoadGraph) (n1 n2 : ℕ) : Bool :=
  g.any fun entry => entry.1 == n1 && entry.2.any fun nb => nb.1 == n2

/-- Walk predicate over an adjacency-list graph: the listed nodes are
visited in order from the start node, each step along a present edge, and
the walk ends at the target. -/
def isWalkB (g : RoadGraph) : ℕ → ℕ → List ℕ → Bool
  | s, t, [] => s == t
  | s, t, n :: rest => hasEdgeB g s n && isWalkB g n t rest

/-- Modelled from the spec: the Shortest-Path Solver of section 4.4 (the
dijkstrajs find_path library used at GraphRoutingService.js line 338 is a
dependency whose source is not part of this repository).  The specification
states that the solver returns a path whenever one connects the endpoints
and the sentinel "no path" exactly when none does, so solver success is
modelled as the existence of a connecting walk in the queried graph. -/
def findPathSucceeds (g : RoadGraph) (s t : ℕ) : Prop :=
  ∃ l, isWalkB g s t l = true

/-- Triangle road graph 0 — 1 — 2 used as the C8 witness instance. -/
def roadGraphTri : RoadGraph :=
  [(0, [(1, 400)]), (1, [(0, 400), (2, 400)]), (2, [(1, 400)])]

/-- Quantization to five decimal digits used for coordinate keys
(coord.lat.toFixed(5) at GraphRoutingService.js lines 33, 50-51), modelled
as rounding the value scaled by 10^5 to the nearest integer (JavaScript
toFixed formats the underlying double; exact halves of negative values may
format differently, a corner no claim depends on). -/
def fix5 (q : ℚ) : ℤ := ⌊q * 100000 + 1/2⌋

/-- Key of the coordinateToNodeId map: the pair of quantized latitude and
longitude standing for the string "lat_lng". -/
def coordKey (c : Coord) : ℤ × ℤ := (fix5 c.lat, fix5 c.lng)

/-- Input route as consumed by buildRoadGraph: an ordered coordinate
polyline (the summary fields of baseline routes are not read). -/
structure RouteInput where
  coordinates : List Coord

/-- State accumulated by buildRoadGraph (the four maps of the service
object plus the running node counter). -/
structure BuildState where
  nextId : ℕ
  coordinateToNodeId : List ((ℤ × ℤ) × ℕ)
  nodePositions : List (ℕ × Coord)
  roadGraph : RoadGraph
  edgeWeights : List ((ℕ × ℕ) × EdgeData)

/-- Empty build state (maps cleared at lines 23-25, nodeId = 0). -/
def initialBuildState : BuildState :=
  { nextId := 0, coordinateToNodeId := [], nodePositions := [],
    roadGraph := [], edgeWeights := [] }

/-- Node-creation step of buildRoadGraph (lines 31-42): a coordinate whose
key is unseen receives the next node id, its position is recorded and an
empty adjacency map is installed. -/
def addNode (st : BuildState) (coord : Coord) : BuildState :=
  match lookupA st.coordinateToNodeId (coordKey coord) with
  | some _ => st
  | none =>
    { nextId := st.nextId + 1,
      coordinateToNodeId := st.coordinateToNodeId ++ [(coordKey coord, st.nextId)],
      nodePositions := st.nodePositions ++ [(st.nextId, coord)],
      roadGraph := st.roadGraph ++ [(st.nextId, [])],
      edgeWeights := st.edgeWeights }

/-- Consecutive coordinate pairs of a polyline (the index loop at
line 46). -/
def consecutivePairs {α : Type} : List α → List (α × α)
  | [] => []
  | [_] => []
  | a :: b :: rest => (a, b) :: consecutivePairs (b :: rest)

/-- In-place update of the adjacency map of one node
(this.roadGraph.get(nodeId1).set(nodeId2, distance) at lines 60-61); an
absent node would be a JavaScript TypeError, unreachable because the node
pass has installed every node, and is modelled as leaving the graph
unchanged. -/
def updateAdj : RoadGraph → ℕ → ℕ → ℚ → RoadGraph
  | [], _, _, _ => []
  | (n, adj) :: rest, n1, n2, d =>
    if n = n1 then (n, mapSet adj n2 d) :: rest
    else (n, adj) :: updateAdj rest n1 n2 d

/-- Edge-creation step of buildRoadGraph (lines 46-85) for one consecutive
coordinate pair: both node ids are looked up, the bidirectional adjacency
entries and both edgeWeights records are written.  There is no check that
the two node ids differ: identical consecutive coordinates produce a
self-loop.  The haversine calculateDistance (lines 95-108) uses
transcendental functions and is passed as the parameter dist; every
structural fact below holds for all dist, and haversine yields 0 for
identical coordinates. -/
def addEdge (dist : Coord → Coord → ℚ) (st : BuildState)
    (pair : Coord × Coord) : BuildState :=
  match lookupA st.coordinateToNodeId (coordKey pair.1),
      lookupA st.coordinateToNodeId (coordKey pair.2) with
  | some nodeId1, some nodeId2 =>
    let distance := dist pair.1 pair.2
    let edgeData : EdgeData :=
      { distance := distance,
        midpoint := ⟨(pair.1.lat + pair.2.lat) / 2, (pair.1.lng + pair.2.lng) / 2⟩,
        estimatedTravelTime := distance / (1389/100) }
    { st with
      roadGraph := updateAdj (updateAdj st.roadGraph nodeId1 nodeId2 distance)
        nodeId2 nodeId1 distance,
      edgeWeights := mapSet (mapSet st.edgeWeights (nodeId1, nodeId2) edgeData)
        (nodeId2, nodeId1) edgeData }
  | _, _ => st

/-- Embedding of GraphRoutingService.buildRoadGraph (lines 21-90): a node
pass over every coordinate of every route, then an edge pass over every
consecutive pair of every route. -/
def buildRoadGraph (dist : Coord → Coord → ℚ) (routes : List RouteInput) :
    BuildState :=
  let st1 := routes.foldl
    (fun st route => route.coordinates.foldl addNode st) initialBuildState
  routes.foldl
    (fun st route => (consecutivePairs route.coordinates).foldl (addEdge dist) st)
    st1

/-- Stand-in distance used to evaluate the build on concrete inputs; like
haversine it assigns 0 to a pair of identical coordinates, the only
property of calculateDistance the evaluation relies on. -/
def flatDist (c1 c2 : Coord) : ℚ := |c2.lat - c1.lat| + |c2.lng - c1.lng|

/-- Route whose two consecutive coordinates are identical. -/
def degenerateRoute : RouteInput := ⟨[⟨0, 0⟩, ⟨0, 0⟩]⟩

/-- Self-loop presence at a node of an adjacency-list graph. -/
def SelfLoopAt (g : RoadGraph) (n : ℕ) : Prop :=
  ∃ adj, lookupA g n = some adj ∧ (lookupA adj n).isSome

/-- Bookkeeping invariant of buildRoadGraph: every node id bound in
coordinateToNodeId has an installed adjacency map in roadGraph. -/
def NodesInstalled (st : BuildState) : Prop :=
  ∀ k n, lookupA st.coordinateToNodeId k = some n →
    (lookupA st.roadGraph n).isSome

/-- Cache slot of SimpleCache (AQIService.js lines 33-36): stored value plus
insertion timestamp. -/
structure CacheEntry where
  value : AQIData
  timestamp : ℚ
deriving DecidableEq, Repr

/-- Embedding of the SimpleCache class (AQIService.js lines 7-38), keyed by
tile keys; timestamps and the TTL are in milliseconds as in the source. -/
structure SimpleCacheQ where
  cache : List ((ℤ × ℤ) × CacheEntry)
  maxSize : ℕ
  ttl : ℚ
deriving DecidableEq, Repr

/-- SimpleCache.get (lines 14-24): absent key misses; an entry older than
the TTL is lazily deleted and misses; otherwise the stored value is
returned and the cache is untouched. -/
def SimpleCacheQ.get (c : SimpleCacheQ) (k : ℤ × ℤ) (now : ℚ) :
    Option AQIData × SimpleCacheQ :=
  match lookupA c.cache k with
  | none => (none, c)
  | some item =>
    if now - item.timestamp > c.ttl then
      (none, { c with cache := mapDelete c.cache k })
    else (some item.value, c)

/-- SimpleCache.set (lines 26-37): when the cache is full the oldest entry
(the first key of the Map, i.e. the head of a uniquely-keyed association
list) is evicted, then the value is stored with the current timestamp. -/
def SimpleCacheQ.set (c : SimpleCacheQ) (k : ℤ × ℤ) (v : AQIData)
    (now : ℚ) : SimpleCacheQ :=
  let base := if c.maxSize ≤ c.cache.length then c.cache.drop 1 else c.cache
  { c with cache := mapSet base k ⟨v, now⟩ }

/-- Per-provider request counters (AQIService.js lines 65-69). -/
structure SourceStats where
  requests : ℕ
  successes : ℕ
  failures : ℕ
deriving DecidableEq, Repr

/-- Parsed OpenWeather response: data.list[0].main.aqi (absent modelled as
none, defaulted to -1 by the ?? operator) and the component record. -/
structure OWPayload where
  aqi : Option ℚ
  components : AQIComponents
deriving DecidableEq, Repr

/-- Parsed IQAir response: the US-scale AQI and the PM2.5 reading. -/
structure IQPayload where
  usAqi : Option ℚ
  pm25 : Option ℚ
deriving DecidableEq, Repr

/-- Parsed WAQI response: the US-scale AQI and the component readings. -/
structure WAPayload where
  usAqi : Option ℚ
  pm25 : Option ℚ
  pm10 : Option ℚ
  o3 : Option ℚ
  no2 : Option ℚ
deriving DecidableEq, Repr

/-- Remote providers as oracles: a network failure, timeout, non-ok HTTP
response or non-success API status is the error case (all are turned into
thrown errors by the source and caught in the provider's catch block). -/
structure Oracles where
  ow : ℚ → ℚ → Except Unit OWPayload
  iq : ℚ → ℚ → Except Unit IQPayload
  wa : ℚ → ℚ → Except Unit WAPayload

/-- AQIService.getTileKey (lines 452-456) with tileSize 0.02. -/
def getTileKey (lat lng : ℚ) : ℤ × ℤ := (⌊lat / (2/100)⌋, ⌊lng / (2/100)⌋)

/-- Whole mutable state of the AQIService object: the aggregated-value
cache, the three per-source caches and the three counters. -/
structure AQIState where
  aqiCache : SimpleCacheQ
  owCache : SimpleCacheQ
  iqCache : SimpleCacheQ
  waCache : SimpleCacheQ
  owStats : SourceStats
  iqStats : SourceStats
  waStats : SourceStats
deriving DecidableEq, Repr

/-- JavaScript expression x || null on an optional numeric field: 0 becomes
null. -/
def orNull (o : Option ℚ) : Option ℚ :=
  match o with
  | some v => if v = 0 then none else some v
  | none => none

/-- Embedding of AQIService.getOpenWeatherAQI (lines 110-150): count the
request, consult the per-source cache, otherwise fetch, cache and count the
outcome.  A failed fetch yields the error record with value -1 (its missing
confidence and components fields are modelled as none/empty). -/
def getOpenWeatherAQI (o : Oracles) (lat lng now : ℚ) (st : AQIState) :
    AQIData × AQIState :=
  let st := { st with owStats :=
    { st.owStats with requests := st.owStats.requests + 1 } }
  let key := getTileKey lat lng
  let res := st.owCache.get key now
  let st := { st with owCache := res.2 }
  match res.1 with
  | some cached => (cached, st)
  | none =>
    match o.ow lat lng with
    | .ok payload =>
      let result : AQIData :=
        { value := payload.aqi.getD (-1), source := .openweather,
          confidence := some .medium, components := payload.components }
      let st := { st with owCache := st.owCache.set key result now }
      let st := { st with owStats :=
        { st.owStats with successes := st.owStats.successes + 1 } }
      (result, st)
    | .error _ =>
      ({ value := -1, source := .openweather, confidence := none,
         components := noComponents },
       { st with owStats :=
         { st.owStats with failures := st.owStats.failures + 1 } })

/-- Embedding of AQIService.getIQAirAQI (lines 155-198): like OpenWeather
but converting the US-scale value and tagging high confidence; the pm25
component passes through || null. -/
def getIQAirAQI (o : Oracles) (lat lng now : ℚ) (st : AQIState) :
    AQIData × AQIState :=
  let st := { st with iqStats :=
    { st.iqStats with requests := st.iqStats.requests + 1 } }
  let key := getTileKey lat lng
  let res := st.iqCache.get key now
  let st := { st with iqCache := res.2 }
  match res.1 with
  | some cached => (cached, st)
  | none =>
    match o.iq lat lng with
    | .ok payload =>
      let result : AQIData :=
        { value := convertUSAQItoScale payload.usAqi, source := .iqair,
          confidence := some .high,
          components :=
            { pm2_5 := orNull payload.pm25, pm10 := none, o3 := none,
              no2 := none } }
      let st := { st with iqCache := st.iqCache.set key result now }
      let st := { st with iqStats :=
        { st.iqStats with successes := st.iqStats.successes + 1 } }
      (result, st)
    | .error _ =>
      ({ value := -1, source := .iqair, confidence := none,
         components := noComponents },
       { st with iqStats :=
         { st.iqStats with failures := st.iqStats.failures + 1 } })

/-- Embedding of AQIService.getWAQIData (lines 203-250); the station field
is not modelled. -/
def getWAQIData (o : Oracles) (lat lng now : ℚ) (st : AQIState) :
    AQIData × AQIState :=
  let st := { st with waStats :=
    { st.waStats with requests := st.waStats.requests + 1 } }
  let key := getTileKey lat lng
  let res := st.waCache.get key now
  let st := { st with waCache := res.2 }
  match res.1 with
  | some cached => (cached, st)
  | none =>
    match o.wa lat lng with
    | .ok payload =>
      let result : AQIData :=
        { value := convertUSAQItoScale payload.usAqi, source := .waqi,
          confidence := some .high,
          components :=
            { pm2_5 := orNull payload.pm25, pm10 := orNull payload.pm10,
              o3 := orNull payload.o3, no2 := orNull payload.no2 } }
      let st := { st with waCache := st.waCache.set key result now }
      let st := { st with waStats :=
        { st.waStats with successes := st.waStats.successes + 1 } }
      (result, st)
    | .error _ =>
      ({ value := -1, source := .waqi, confidence := none,
         components := noComponents },
       { st with waStats :=
         { st.waStats with failures := st.waStats.failures + 1 } })

/-- Stateful wrapper of getAggregatedAQI (lines 255-318): the three provider
fetches run under Promise.all and touch disjoint parts of the state, so they
are composed sequentially; the aggregation itself is the pure core above. -/
def getAggregatedAQIState (o : Oracles) (lat lng now : ℚ) (st : AQIState) :
    AQIData × AQIState :=
  let pOW := getOpenWeatherAQI o lat lng now st
  let pIQ := getIQAirAQI o lat lng now pOW.2
  let pWA := getWAQIData o lat lng now pIQ.2
  (getAggregatedAQI pOW.1 pIQ.1 pWA.1, pWA.2)

/-- Embedding of AQIService.getAQI (lines 79-105): consult the aggregated
cache unless forceRefresh, return a hit directly (cached values always
carry a value field in the model, so the value-undefined fallback branch of
line 84 is not taken), otherwise aggregate from the providers and cache the
result.  USE_MULTIPLE_SOURCES is true in the source, and the catch branch
is unreachable in the model because aggregation is total. -/
def getAQI (o : Oracles) (lat lng : ℚ) (forceRefresh : Bool) (now : ℚ)
    (st : AQIState) : AQIData × AQIState :=
  let key := getTileKey lat lng
  let res := if forceRefresh then (none, st.aqiCache)
    else st.aqiCache.get key now
  let st := { st with aqiCache := res.2 }
  match res.1 with
  | some cached => (cached, st)
  | none =>
    let p := getAggregatedAQIState o lat lng now st
    (p.1, { p.2 with aqiCache := p.2.aqiCache.set key p.1 now })

/-- Empty per-source cache with the 30-minute TTL (in milliseconds). -/
def emptyCache (maxSize : ℕ) : SimpleCacheQ :=
  { cache := [], maxSize := maxSize, ttl := 1800000 }

/-- Oracles on which every provider fails. -/
def failingOracles : Oracles :=
  ⟨fun _ _ => .error (), fun _ _ => .error (), fun _ _ => .error ()⟩

/-- Service state whose aggregated cache already holds the fallback record
for tile (0, 0), stored at time 0. -/
def cachedState : AQIState :=
  { aqiCache :=
      { cache := [((0, 0), ⟨fallbackAQI, 0⟩)], maxSize := 500, ttl := 1800000 },
    owCache := emptyCache 300, iqCache := emptyCache 300,
    waCache := emptyCache 300,
    owStats := ⟨0, 0, 0⟩, iqStats := ⟨0, 0, 0⟩, waStats := ⟨0, 0, 0⟩ }

theorem lookupA_mapSet_self {κ β : Type} [DecidableEq κ]
    (m : List (κ × β)) (k : κ) (v : β) : lookupA (mapSet m k v) k = some v := by
  induction m with
  | nil => simp [mapSet, lookupA]
  | cons p rest ih =>
    obtain ⟨k', v'⟩ := p
    by_cases h : k' = k <;> simp [mapSet, lookupA, h, ih]

theorem lookupA_mapSet_ne {κ β : Type} [DecidableEq κ]
    (m : List (κ × β)) (k k' : κ) (v : β) (h : k' ≠ k) :
    lookupA (mapSet m k v) k' = lookupA m k' := by
  induction m with
  | nil => simp [mapSet, lookupA, Ne.symm h]
  | cons p rest ih =>
    obtain ⟨k₀, v₀⟩ := p
    by_cases h₀ : k₀ = k
    · subst h₀
      simp [mapSet, lookupA, Ne.symm h, h]
    · by_cases h₁ : k₀ = k' <;> simp [mapSet, lookupA, h₀, h₁, ih, h]

theorem lookupA_mapSet_isSome {κ β : Type} [DecidableEq κ]
    (m : List (κ × β)) (k k' : κ) (v : β) (h : (lookupA m k').isSome) :
    (lookupA (mapSet m k v) k').isSome := by
  by_cases hk : k' = k
  · subst hk; simp [lookupA_mapSet_self]
  · rwa [lookupA_mapSet_ne m k k' v hk]

theorem lookupA_append_isSome {κ β : Type} [DecidableEq κ]
    (m m' : List (κ × β)) (k : κ) (h : (lookupA m k).isSome) :
    (lookupA (m ++ m') k).isSome := by
  induction m with
  | nil => simp [lookupA] at h
  | cons p rest ih =>
    obtain ⟨k₀, v₀⟩ := p
    by_cases h₀ : k₀ = k <;> simp [lookupA, h₀] at h ⊢
    · exact ih h

theorem lookupA_append_of_isSome {κ β : Type} [DecidableEq κ]
    (m m' : List (κ × β)) (k : κ) (h : (lookupA m k).isSome) :
    lookupA (m ++ m') k = lookupA m k := by
  induction m with
  | nil => simp [lookupA] at h
  | cons p rest ih =>
    obtain ⟨k₀, v₀⟩ := p
    by_cases h₀ : k₀ = k <;> simp [lookupA, h₀] at h ⊢
    · exact ih h

/-- C1: the claim states that no route in a result set of
findParetoOptimalRoutes dominates another.  At the concrete solver outcome
solveTwoRoutes (run with the default preferences maxAlternatives = 5,
aqiWeight = 0.7, distanceWeight = 0.3) the code returns both the route
(100, 100) and the route (1000, 1000), and the first strictly dominates the
second: the filter isDominatedRoute only discards routes within 5% of an
existing one, never dominated ones, contradicting both the claim and the
function's own documentation. -/
theorem paretoResult_contains_dominated_pair :
    findParetoOptimalRoutes solveTwoRoutes 5 (7/10) (3/10) =
      [⟨100, 100⟩, ⟨1000, 1000⟩] ∧
    dominates ⟨100, 100⟩ ⟨1000, 1000⟩ := by
  constructor
  · norm_num [findParetoOptimalRoutes, weightCombinations, solveTwoRoutes,
      sweepStep, isDominatedRoute, sortByLt, insertByLt, routeScore,
      Prod.ext_iff]
  · refine ⟨by norm_num, by norm_num, Or.inl (by norm_num)⟩

theorem sweepStep_ne_nil_of_ne_nil (solve : ℚ × ℚ → Option RouteResult)
    (acc : List RouteResult) (w : ℚ × ℚ) (h : acc ≠ []) :
    sweepStep solve acc w ≠ [] := by
  unfold sweepStep
  match solve w with
  | some route =>
    by_cases hd : isDominatedRoute route acc <;> simp [hd, h]
  | none => simpa using h

theorem sweepStep_nil_isSome (solve : ℚ × ℚ → Option RouteResult)
    (w : ℚ × ℚ) (h : (solve w).isSome) : sweepStep solve [] w ≠ [] := by
  unfold sweepStep
  match hw : solve w with
  | some route => simp [isDominatedRoute]
  | none => rw [hw] at h; simp at h

theorem sweepFold_ne_nil (solve : ℚ × ℚ → Option RouteResult)
    (combos : List (ℚ × ℚ)) (acc : List RouteResult)
    (h : acc ≠ [] ∨ ∃ w ∈ combos, (solve w).isSome) :
    combos.foldl (sweepStep solve) acc ≠ [] := by
  induction combos generalizing acc with
  | nil =>
    rcases h with h | ⟨w, hw, _⟩
    · simpa using h
    · simp at hw
  | cons w rest ih =>
    rcases h with h | ⟨w', hw', hsome⟩
    · exact ih _ (Or.inl (sweepStep_ne_nil_of_ne_nil solve acc w h))
    · rcases List.mem_cons.mp hw' with rfl | hmem
      · rcases acc with _ | ⟨a, as⟩
        · exact ih _ (Or.inl (sweepStep_nil_isSome solve w' hsome))
        · exact ih _ (Or.inl (sweepStep_ne_nil_of_ne_nil solve _ w' (by simp)))
      · exact ih _ (Or.inr ⟨w', hmem, hsome⟩)

theorem insertByLt_length {α : Type} (lt : α → α → Bool) (x : α)
    (l : List α) : (insertByLt lt x l).length = l.length + 1 := by
  induction l with
  | nil => simp [insertByLt]
  | cons y ys ih =>
    by_cases h : lt x y <;> simp [insertByLt, h, ih]

theorem sortByLt_foldl_length {α : Type} (lt : α → α → Bool)
    (l acc : List α) :
    (l.foldl (fun acc x => insertByLt lt x acc) acc).length =
      acc.length + l.length := by
  induction l generalizing acc with
  | nil => simp
  | cons y ys ih => simp [ih, insertByLt_length]; omega

theorem sortByLt_length {α : Type} (lt : α → α → Bool) (l : List α) :
    (sortByLt lt l).length = l.length := by
  simpa using sortByLt_foldl_length lt l []

/-- C9: a weight combination for which the solver yields no path (modelled by
solve returning none, covering both a null result and a caught exception)
contributes nothing to the sweep but does not abort it, and as long as at
least one combination yields a route and at least one alternative is
requested, findParetoOptimalRoutes returns a non-empty list. -/
theorem findParetoOptimalRoutes_ne_nil (solve : ℚ × ℚ → Option RouteResult)
    (maxAlternatives : ℕ) (aqiWeight distanceWeight : ℚ)
    (hmax : 1 ≤ maxAlternatives)
    (hsome : ∃ w ∈ weightCombinations, (solve w).isSome) :
    findParetoOptimalRoutes solve maxAlternatives aqiWeight distanceWeight ≠ [] := by
  unfold findParetoOptimalRoutes
  intro hnil
  have hlen := congrArg List.length hnil
  rw [List.length_take, sortByLt_length] at hlen
  simp only [List.length_nil] at hlen
  have hfold := sweepFold_ne_nil solve weightCombinations [] (Or.inr hsome)
  have hpos : 0 < (weightCombinations.foldl (sweepStep solve) []).length :=
    List.length_pos.mpr hfold
  omega

theorem findParetoOptimalRoutes_ne_nil_witness :
    findParetoOptimalRoutes solveOnlyPureDistance 5 (7/10) (3/10) ≠ [] :=
  findParetoOptimalRoutes_ne_nil solveOnlyPureDistance 5 (7/10) (3/10)
    (by norm_num)
    ⟨(0, 1), by simp [weightCombinations], by simp [solveOnlyPureDistance]⟩

/-- C4: whenever every provider fails or reports an invalid value (failed
fetches surface as records with value -1 from the provider catch blocks, and
invalid responses have value ≤ 0), getAggregatedAQI returns the fallback
record with value 3 and low confidence.  The embedding is a total function:
no exception escapes, matching the source, where every provider call is
wrapped in its own try/catch and the empty-valid-set branch returns rather
than throws. -/
theorem getAggregatedAQI_all_failed (openweatherData iqairData waqiData : AQIData)
    (how : openweatherData.value ≤ 0) (hiq : iqairData.value ≤ 0)
    (hwa : waqiData.value ≤ 0) :
    getAggregatedAQI openweatherData iqairData waqiData = fallbackAQI := by
  unfold getAggregatedAQI validResults
  simp [not_lt.mpr how, not_lt.mpr hiq, not_lt.mpr hwa, aggregateValid]

theorem getAggregatedAQI_all_failed_witness :
    getAggregatedAQI
      { value := -1, source := .openweather, confidence := none,
        components := noComponents }
      { value := -1, source := .iqair, confidence := none,
        components := noComponents }
      { value := 0, source := .waqi, confidence := some .high,
        components := noComponents } = fallbackAQI :=
  getAggregatedAQI_all_failed _ _ _ (by norm_num) (by norm_num) (by norm_num)

theorem computeWeight_eq_trustWeight (r : AQIData) :
    computeWeight r = trustWeight r := by
  unfold computeWeight trustWeight
  split_ifs <;> first | (exfalso; simp_all; done) | ring

theorem foldl_add_eq_sum (l : List ℚ) : l.foldl (· + ·) 0 = l.sum :=
  (List.sum_eq_foldl).symm

theorem zip_map_foldl_eq_sum (f : AQIData → ℚ) (l : List AQIData) (a : ℚ) :
    (l.zip (l.map f)).foldl (fun sum p => sum + p.1.value * p.2) a =
      a + (l.map (fun r => r.value * f r)).sum := by
  induction l generalizing a with
  | nil => simp
  | cons r rest ih => simp [ih]; ring

theorem aggregateValid_value (valid : List AQIData) (h : 2 ≤ valid.length) :
    (aggregateValid valid).value =
      ((jsRound ((valid.map (fun r => r.value * trustWeight r)).sum /
        (valid.map trustWeight).sum) : ℤ) : ℚ) := by
  match valid with
  | [] => simp at h
  | [single] => simp at h
  | a :: b :: rest =>
    show ((jsRound _ : ℤ) : ℚ) = _
    rw [List.map_congr_left (fun r _ => computeWeight_eq_trustWeight r),
      foldl_add_eq_sum, zip_map_foldl_eq_sum, zero_add]

/-- C7: whenever at least two valid provider responses remain, the
aggregated value equals the weighted mean of their values rounded to the
nearest integer, with each response weighted by 1.0, times 1.5 for high
confidence, times 0.7 for low confidence, times the fixed trust factors
1.3 for waqi and 1.2 for iqair. -/
theorem getAggregatedAQI_weighted_mean
    (openweatherData iqairData waqiData : AQIData)
    (h : 2 ≤ (validResults openweatherData iqairData waqiData).length) :
    (getAggregatedAQI openweatherData iqairData waqiData).value =
      ((jsRound
        (((validResults openweatherData iqairData waqiData).map
            (fun r => r.value * trustWeight r)).sum /
          ((validResults openweatherData iqairData waqiData).map
            trustWeight).sum) : ℤ) : ℚ) := by
  unfold getAggregatedAQI
  exact aggregateValid_value _ h

theorem getAggregatedAQI_weighted_mean_witness :
    (getAggregatedAQI owSample iqSampleFailed waSample).value = 3 := by
  have hv : validResults owSample iqSampleFailed waSample =
      [owSample, waSample] := by
    simp [validResults, owSample, iqSampleFailed, waSample]
  have h1 : trustWeight owSample = 1 := by
    simp [trustWeight, owSample]
  have h2 : trustWeight waSample = 39/20 := by
    simp [trustWeight, waSample]
    norm_num
  rw [getAggregatedAQI_weighted_mean _ _ _ (by rw [hv]; norm_num)]
  rw [hv]
  norm_num [h1, h2, jsRound, show owSample.value = 2 from rfl,
    show waSample.value = 4 from rfl]

/-- Closed form of calculateExposureDose on a present edge with a
successful fetch, shared by the exposure-dose theorems below. -/
theorem calculateExposureDose_closed_form (edgeWeights : ℕ × ℕ → Option EdgeData)
    (fetchAQI : ℚ → ℚ → Except Unit AQIData) (edgeKey : ℕ × ℕ)
    (edgeData : EdgeData) (aqiData : AQIData)
    (he : edgeWeights edgeKey = some edgeData)
    (hf : fetchAQI edgeData.midpoint.lat edgeData.midpoint.lng = .ok aqiData) :
    calculateExposureDose edgeWeights fetchAQI edgeKey =
      max ((if aqiData.value = 0 then 3 else aqiData.value) *
        (edgeData.estimatedTravelTime / 60) *
        confidenceFactor aqiData * pm25Factor aqiData) (1/10) := by
  unfold calculateExposureDose confidenceFactor pm25Factor
  simp only [he, hf]
  rcases hpm : aqiData.components.pm2_5 with _ | v <;>
    simp only [hpm] <;> split_ifs <;> first | rfl | (congr 1; ring)

/-- C5 (amended): for a present edge and a successful AQI fetch, the
exposure dose is the AQI level (3 substituted for a zero value) times the
travel time in minutes, times the confidence factor (1.1 low / 0.95 high),
times the PM2.5 factor (1.2 for a high PM2.5 component), and the result is
then floored at the minimum dose 0.1 — the claim as literally stated omits
the 0.1 floor (and the PM2.5 multiplier). -/
theorem calculateExposureDose_formula (edgeWeights : ℕ × ℕ → Option EdgeData)
    (fetchAQI : ℚ → ℚ → Except Unit AQIData) (edgeKey : ℕ × ℕ)
    (edgeData : EdgeData) (aqiData : AQIData)
    (he : edgeWeights edgeKey = some edgeData)
    (hf : fetchAQI edgeData.midpoint.lat edgeData.midpoint.lng = .ok aqiData) :
    calculateExposureDose edgeWeights fetchAQI edgeKey =
      max ((if aqiData.value = 0 then 3 else aqiData.value) *
        (edgeData.estimatedTravelTime / 60) *
        confidenceFactor aqiData * pm25Factor aqiData) (1/10) :=
  calculateExposureDose_closed_form edgeWeights fetchAQI edgeKey
    edgeData aqiData he hf

/-- C5 counterexample: on the edge (0,1) with AQI level a = 1, travel time
t = 0.01 minutes and medium confidence, the claim as stated demands the
return value a × t = 0.01, but the code returns the floored minimum dose
0.1 (Math.max(exposureDose, 0.1) at line 182). -/
theorem calculateExposureDose_not_exact_product :
    calculateExposureDose edgeWeightsTiny fetchCleanAir (0, 1) = 1/10 ∧
      (1 : ℚ) * ((3/5) / 60) ≠ 1/10 := by
  constructor
  · rw [calculateExposureDose_closed_form edgeWeightsTiny fetchCleanAir (0, 1)
      tinyEdge cleanAirData (by simp [edgeWeightsTiny]) rfl]
    simp [confidenceFactor, pm25Factor, noComponents, cleanAirData, tinyEdge]
    norm_num
  · norm_num

theorem calculateExposureDose_formula_witness :
    calculateExposureDose edgeWeightsTiny fetchCleanAir (0, 1) =
      max ((1 : ℚ) * ((3/5) / 60) * 1 * 1) (1/10) := by
  have h := calculateExposureDose_formula edgeWeightsTiny fetchCleanAir (0, 1)
    tinyEdge cleanAirData (by simp [edgeWeightsTiny]) rfl
  rw [h]
  simp [confidenceFactor, pm25Factor, noComponents, cleanAirData, tinyEdge]

/-- C10: an edge key absent from the edgeWeights map yields exposure dose 0,
and a present edge whose AQI fetch succeeds yields a dose of at least the
0.1 floor. -/
theorem calculateExposureDose_bounds (edgeWeights : ℕ × ℕ → Option EdgeData)
    (fetchAQI : ℚ → ℚ → Except Unit AQIData) (edgeKey : ℕ × ℕ) :
    (edgeWeights edgeKey = none →
      calculateExposureDose edgeWeights fetchAQI edgeKey = 0) ∧
    (∀ edgeData aqiData, edgeWeights edgeKey = some edgeData →
      fetchAQI edgeData.midpoint.lat edgeData.midpoint.lng = .ok aqiData →
      1/10 ≤ calculateExposureDose edgeWeights fetchAQI edgeKey) := by
  constructor
  · intro hnone
    unfold calculateExposureDose
    simp only [hnone]
  · intro edgeData aqiData he hf
    rw [calculateExposureDose_closed_form edgeWeights fetchAQI edgeKey
      edgeData aqiData he hf]
    exact le_max_right _ _

theorem calculateExposureDose_bounds_witness :
    calculateExposureDose edgeWeightsTiny fetchCleanAir (2, 3) = 0 ∧
      1/10 ≤ calculateExposureDose edgeWeightsTiny fetchCleanAir (0, 1) :=
  ⟨(calculateExposureDose_bounds edgeWeightsTiny fetchCleanAir (2, 3)).1
      (by simp [edgeWeightsTiny]),
   (calculateExposureDose_bounds edgeWeightsTiny fetchCleanAir (0, 1)).2
      tinyEdge cleanAirData (by simp [edgeWeightsTiny]) rfl⟩

/-- C2: every weight entry of the weighted graph built by
findSingleObjectiveRoute is at least 0.001, for every exposure map, edge
data map, edge AQI, weight pair and threshold, because both branches of the
weight computation apply Math.max(compositeWeight, 0.001). -/
theorem buildWeightedGraph_weight_ge (edgeExposures : ℕ × ℕ → Option ℚ)
    (edgeWeights : ℕ × ℕ → Option EdgeData) (edgeAQI : ℕ × ℕ → ℚ)
    (aqiW distW maxAQIThreshold : ℚ) (roadGraph : RoadGraph)
    (entry : ℕ × List (ℕ × ℚ)) (nb : ℕ × ℚ)
    (hentry : entry ∈ buildWeightedGraph edgeExposures edgeWeights edgeAQI
      aqiW distW maxAQIThreshold roadGraph)
    (hnb : nb ∈ entry.2) : 1/1000 ≤ nb.2 := by
  unfold buildWeightedGraph at hentry
  obtain ⟨⟨n, adj⟩, hmem, rfl⟩ := List.mem_map.mp hentry
  obtain ⟨⟨m, d⟩, hmem2, rfl⟩ := List.mem_map.mp hnb
  show 1/1000 ≤ edgeCompositeWeight _ _ _ _ _ _ _ _ _
  unfold edgeCompositeWeight
  rcases edgeWeights (n, m) with _ | ed
  · exact le_max_right _ _
  · by_cases hc : maxAQIThreshold < 5 ∧ edgeAQI (n, m) > maxAQIThreshold <;>
      simp only [hc, if_true, if_false] <;> exact le_max_right _ _

theorem buildWeightedGraph_weight_ge_witness :
    (1/1000 : ℚ) ≤ (((1 : ℕ), (3/20 : ℚ))).2 :=
  buildWeightedGraph_weight_ge (fun _ => none) (fun _ => none) (fun _ => 3)
    (7/10) (3/10) 5 [(0, [(1, 500)])] (0, [(1, 3/20)]) (1, 3/20)
    (by norm_num [buildWeightedGraph, edgeCompositeWeight, max_def])
    (by norm_num)

theorem hasEdgeB_buildWeightedGraph (edgeExposures : ℕ × ℕ → Option ℚ)
    (edgeWeights : ℕ × ℕ → Option EdgeData) (edgeAQI : ℕ × ℕ → ℚ)
    (aqiW distW maxAQIThreshold : ℚ) (roadGraph : RoadGraph) (n1 n2 : ℕ)
    (h : hasEdgeB roadGraph n1 n2 = true) :
    hasEdgeB (buildWeightedGraph edgeExposures edgeWeights edgeAQI
      aqiW distW maxAQIThreshold roadGraph) n1 n2 = true := by
  simp only [hasEdgeB, List.any_eq_true, Bool.and_eq_true] at h ⊢
  obtain ⟨entry, hmem, h1, h2⟩ := h
  refine ⟨(entry.1, entry.2.map fun nb =>
    (nb.1, edgeCompositeWeight edgeExposures edgeWeights edgeAQI
      aqiW distW maxAQIThreshold entry.1 nb.1 nb.2)),
    List.mem_map_of_mem _ hmem, h1, ?_⟩
  obtain ⟨nb, hnb, hfst⟩ := h2
  exact ⟨_, List.mem_map_of_mem _ hnb, hfst⟩

theorem isWalkB_buildWeightedGraph (edgeExposures : ℕ × ℕ → Option ℚ)
    (edgeWeights : ℕ × ℕ → Option EdgeData) (edgeAQI : ℕ × ℕ → ℚ)
    (aqiW distW maxAQIThreshold : ℚ) (roadGraph : RoadGraph)
    (l : List ℕ) (s t : ℕ) (h : isWalkB roadGraph s t l = true) :
    isWalkB (buildWeightedGraph edgeExposures edgeWeights edgeAQI
      aqiW distW maxAQIThreshold roadGraph) s t l = true := by
  induction l generalizing s with
  | nil => exact h
  | cons n rest ih =>
    simp only [isWalkB, Bool.and_eq_true] at h ⊢
    exact ⟨hasEdgeB_buildWeightedGraph _ _ _ _ _ _ _ _ _ h.1, ih n h.2⟩

/-- C8: with an active threshold (maxAQIThreshold < 5), every road-graph
edge whose data is present and whose midpoint AQI exceeds the threshold is
kept in the weighted graph with its normalized exposure multiplied by the
fixed penalty 10 (the source computes (exposure * 10) / 10, i.e. ten times
the normal exposure / 10), rather than being removed; consequently whenever
the road graph connects the endpoints, the weighted graph does too, and the
solver — which by the specification fails only on disconnected endpoints —
still returns a path. -/
theorem findSingleObjectiveRoute_penalizes_not_removes
    (edgeExposures : ℕ × ℕ → Option ℚ) (edgeWeights : ℕ × ℕ → Option EdgeData)
    (edgeAQI : ℕ × ℕ → ℚ) (aqiW distW maxAQIThreshold : ℚ)
    (roadGraph : RoadGraph) (s t : ℕ) (hT : maxAQIThreshold < 5) :
    (∀ n adj m d, (n, adj) ∈ roadGraph → (m, d) ∈ adj →
      (edgeWeights (n, m)).isSome → edgeAQI (n, m) > maxAQIThreshold →
      ((n, adj.map fun nb => (nb.1, edgeCompositeWeight edgeExposures
          edgeWeights edgeAQI aqiW distW maxAQIThreshold n nb.1 nb.2)) ∈
        buildWeightedGraph edgeExposures edgeWeights edgeAQI
          aqiW distW maxAQIThreshold roadGraph ∧
       (m, max ((10 * ((edgeExposures (n, m)).getD 0 / 10)) * aqiW +
          (d / 1000) * distW) (1/1000)) ∈
        adj.map fun nb => (nb.1, edgeCompositeWeight edgeExposures
          edgeWeights edgeAQI aqiW distW maxAQIThreshold n nb.1 nb.2))) ∧
    (findPathSucceeds roadGraph s t →
      findPathSucceeds (buildWeightedGraph edgeExposures edgeWeights edgeAQI
        aqiW distW maxAQIThreshold roadGraph) s t) := by
  constructor
  · intro n adj m d hadj hmem hsome hgt
    constructor
    · exact List.mem_map_of_mem
        (fun entry => (entry.1, entry.2.map fun nb =>
          (nb.1, edgeCompositeWeight edgeExposures edgeWeights edgeAQI
            aqiW distW maxAQIThreshold entry.1 nb.1 nb.2))) hadj
    · have himg := List.mem_map_of_mem
        (fun nb : ℕ × ℚ => (nb.1, edgeCompositeWeight edgeExposures
          edgeWeights edgeAQI aqiW distW maxAQIThreshold n nb.1 nb.2)) hmem
      have hval : edgeCompositeWeight edgeExposures edgeWeights edgeAQI
          aqiW distW maxAQIThreshold n m d =
          max ((10 * ((edgeExposures (n, m)).getD 0 / 10)) * aqiW +
            (d / 1000) * distW) (1/1000) := by
        unfold edgeCompositeWeight
        rcases hw : edgeWeights (n, m) with _ | ed
        · rw [hw] at hsome; simp at hsome
        · simp only [if_pos (And.intro hT hgt)]
          congr 1
          ring
      simpa only [hval] using himg
  · rintro ⟨l, hl⟩
    exact ⟨l, isWalkB_buildWeightedGraph _ _ _ _ _ _ _ _ _ _ hl⟩

theorem findSingleObjectiveRoute_penalizes_not_removes_witness :
    findPathSucceeds (buildWeightedGraph (fun _ => some 6)
      (fun _ => some tinyEdge) (fun _ => 5) 1 0 2 roadGraphTri) 0 2 :=
  (findSingleObjectiveRoute_penalizes_not_removes (fun _ => some 6)
    (fun _ => some tinyEdge) (fun _ => 5) 1 0 2 roadGraphTri 0 2
    (by norm_num)).2
    ⟨[1, 2], by decide⟩

/-- C3 counterexample: the claim says edges between identical consecutive
coordinates are skipped, so the graph has no self-loop and no zero-distance
edge; but building from the single route [(0,0), (0,0)] yields the road
graph [(0, [(0, 0)])] — node 0 carries a self-loop of distance 0 — and a
zero-distance edgeWeights record for the key (0,0): the source has no skip
for nodeId1 = nodeId2. -/
theorem buildRoadGraph_keeps_identical_pair :
    (buildRoadGraph flatDist [degenerateRoute]).roadGraph = [(0, [(0, 0)])] ∧
    lookupA (buildRoadGraph flatDist [degenerateRoute]).edgeWeights (0, 0) =
      some { distance := 0, midpoint := ⟨0, 0⟩, estimatedTravelTime := 0 } := by
  constructor <;>
    norm_num [buildRoadGraph, degenerateRoute, consecutivePairs, addNode,
      addEdge, initialBuildState, lookupA, coordKey, fix5, flatDist,
      updateAdj, mapSet]

theorem lookupA_append_right {κ β : Type} [DecidableEq κ]
    (m m' : List (κ × β)) (k : κ) (h : lookupA m k = none) :
    lookupA (m ++ m') k = lookupA m' k := by
  induction m with
  | nil => simp
  | cons p rest ih =>
    obtain ⟨k₀, v₀⟩ := p
    by_cases h₀ : k₀ = k <;> simp [lookupA, h₀] at h ⊢
    exact ih h

theorem foldlPreserves {α σ : Type} (f : σ → α → σ) (Q : σ → Prop)
    (hf : ∀ s a, Q s → Q (f s a)) :
    ∀ (l : List α) (s : σ), Q s → Q (l.foldl f s) := by
  intro l
  induction l with
  | nil => intro s hs; exact hs
  | cons a rest ih => intro s hs; exact ih (f s a) (hf s a hs)

theorem foldlEstablishes {α σ : Type} (f : σ → α → σ) (x : α) (l : List α)
    (P Q : σ → Prop) (hx : x ∈ l)
    (hP : ∀ s a, P s → P (f s a))
    (hQ : ∀ s a, Q s → Q (f s a))
    (hEst : ∀ s, P s → Q (f s x)) :
    ∀ s : σ, P s → Q (l.foldl f s) := by
  induction l with
  | nil => cases hx
  | cons a rest ih =>
    intro s hs
    rcases List.mem_cons.mp hx with rfl | hmem
    · exact foldlPreserves f Q hQ rest (f s x) (hEst s hs)
    · exact ih hmem (f s a) (hP s a hs)

theorem lookupA_append_single_isSome {κ β : Type} [DecidableEq κ]
    (m : List (κ × β)) (k : κ) (v : β) :
    (lookupA (m ++ [(k, v)]) k).isSome := by
  rcases h : lookupA m k with _ | w
  · rw [lookupA_append_right _ _ _ h]
    simp [lookupA]
  · rw [lookupA_append_of_isSome _ _ _ (by simp [h])]
    simp [h]

theorem addNode_nodesInstalled (st : BuildState) (c : Coord)
    (h : NodesInstalled st) : NodesInstalled (addNode st c) := by
  unfold addNode
  rcases hl : lookupA st.coordinateToNodeId (coordKey c) with _ | n0 <;>
    simp only [hl]
  · intro k n hk
    dsimp only at hk ⊢
    rcases hm : lookupA st.coordinateToNodeId k with _ | n1
    · rw [lookupA_append_right _ _ _ hm] at hk
      by_cases hkc : coordKey c = k
      · simp [lookupA, hkc] at hk
        subst hk
        exact lookupA_append_single_isSome _ _ _
      · simp [lookupA, hkc] at hk
    · rw [lookupA_append_of_isSome _ _ _ (by simp [hm]), hm] at hk
      injection hk with hk
      subst hk
      exact lookupA_append_isSome _ _ _ (h k _ hm)
  · exact h

theorem addNode_assigned_preserved (st : BuildState) (c : Coord) (k : ℤ × ℤ)
    (h : (lookupA st.coordinateToNodeId k).isSome) :
    (lookupA (addNode st c).coordinateToNodeId k).isSome := by
  unfold addNode
  rcases hl : lookupA st.coordinateToNodeId (coordKey c) with _ | n0 <;>
    simp only [hl]
  · exact lookupA_append_isSome _ _ _ h
  · exact h

theorem addNode_assigns (st : BuildState) (c : Coord) :
    (lookupA (addNode st c).coordinateToNodeId (coordKey c)).isSome := by
  unfold addNode
  rcases hl : lookupA st.coordinateToNodeId (coordKey c) with _ | n0 <;>
    simp only [hl]
  · exact lookupA_append_single_isSome _ _ _
  · simp [hl]

theorem lookupA_updateAdj (g : RoadGraph) (n1 n2 : ℕ) (d : ℚ) (n : ℕ) :
    lookupA (updateAdj g n1 n2 d) n =
      if n = n1 then (lookupA g n).map (fun adj => mapSet adj n2 d)
      else lookupA g n := by
  induction g with
  | nil => simp [updateAdj, lookupA]
  | cons p rest ih =>
    obtain ⟨k, adj⟩ := p
    by_cases h1 : k = n1
    · subst h1
      by_cases h2 : n = k
      · subst h2
        simp [updateAdj, lookupA]
      · simp [updateAdj, lookupA, h2, Ne.symm h2]
    · by_cases h2 : n = k
      · subst h2
        simp [updateAdj, lookupA, h1, fun h : n = n1 => h1 h]
      · simp [updateAdj, lookupA, h1, Ne.symm h2, ih]

theorem lookupA_updateAdj_isSome (g : RoadGraph) (n1 n2 : ℕ) (d : ℚ) (n : ℕ)
    (h : (lookupA g n).isSome) :
    (lookupA (updateAdj g n1 n2 d) n).isSome := by
  rw [lookupA_updateAdj]
  rcases Option.isSome_iff_exists.mp h with ⟨adj, hadj⟩
  by_cases hn : n = n1
  · subst hn
    simp [hadj]
  · simp [hn, hadj]

theorem selfLoopAt_updateAdj (g : RoadGraph) (m1 m2 : ℕ) (d : ℚ) (n : ℕ)
    (h : SelfLoopAt g n) : SelfLoopAt (updateAdj g m1 m2 d) n := by
  obtain ⟨adj, hadj, hself⟩ := h
  by_cases hn : n = m1
  · subst hn
    refine ⟨mapSet adj m2 d, ?_, ?_⟩
    · rw [lookupA_updateAdj]
      simp [hadj]
    · exact lookupA_mapSet_isSome _ _ _ _ hself
  · exact ⟨adj, by rw [lookupA_updateAdj]; simp [hn, hadj], hself⟩

theorem addEdge_coordinateToNodeId (dist : Coord → Coord → ℚ)
    (st : BuildState) (pair : Coord × Coord) :
    (addEdge dist st pair).coordinateToNodeId = st.coordinateToNodeId := by
  unfold addEdge
  rcases lookupA st.coordinateToNodeId (coordKey pair.1) with _ | n1 <;>
    rcases lookupA st.coordinateToNodeId (coordKey pair.2) with _ | n2 <;>
    rfl

theorem addEdge_roadGraph_isSome (dist : Coord → Coord → ℚ)
    (st : BuildState) (pair : Coord × Coord) (n : ℕ)
    (h : (lookupA st.roadGraph n).isSome) :
    (lookupA (addEdge dist st pair).roadGraph n).isSome := by
  unfold addEdge
  rcases lookupA st.coordinateToNodeId (coordKey pair.1) with _ | n1 <;>
    rcases lookupA st.coordinateToNodeId (coordKey pair.2) with _ | n2 <;>
    dsimp only <;> try exact h
  exact lookupA_updateAdj_isSome _ _ _ _ _ (lookupA_updateAdj_isSome _ _ _ _ _ h)

theorem addEdge_selfLoopAt (dist : Coord → Coord → ℚ)
    (st : BuildState) (pair : Coord × Coord) (n : ℕ)
    (h : SelfLoopAt st.roadGraph n) :
    SelfLoopAt (addEdge dist st pair).roadGraph n := by
  unfold addEdge
  rcases lookupA st.coordinateToNodeId (coordKey pair.1) with _ | n1 <;>
    rcases lookupA st.coordinateToNodeId (coordKey pair.2) with _ | n2 <;>
    dsimp only <;> try exact h
  exact selfLoopAt_updateAdj _ _ _ _ _ (selfLoopAt_updateAdj _ _ _ _ _ h)

theorem addEdge_creates_selfLoop (dist : Coord → Coord → ℚ)
    (st : BuildState) (c1 c2 : Coord) (n : ℕ)
    (hkey : coordKey c1 = coordKey c2)
    (hn : lookupA st.coordinateToNodeId (coordKey c1) = some n)
    (hg : (lookupA st.roadGraph n).isSome) :
    SelfLoopAt (addEdge dist st (c1, c2)).roadGraph n := by
  have hn2 : lookupA st.coordinateToNodeId (coordKey c2) = some n := by
    rw [← hkey]; exact hn
  unfold addEdge
  simp only [hn, hn2]
  obtain ⟨adj, hadj⟩ := Option.isSome_iff_exists.mp hg
  apply selfLoopAt_updateAdj
  refine ⟨mapSet adj n (dist c1 c2), ?_, ?_⟩
  · rw [lookupA_updateAdj]
    simp [hadj]
  · simp [lookupA_mapSet_self]

theorem consecutivePairs_mem_left {α : Type} (l : List α) (a b : α)
    (h : (a, b) ∈ consecutivePairs l) : a ∈ l := by
  induction l with
  | nil => simp [consecutivePairs] at h
  | cons x rest ih =>
    cases rest with
    | nil => simp [consecutivePairs] at h
    | cons y rest' =>
      simp only [consecutivePairs, List.mem_cons, Prod.mk.injEq] at h
      rcases h with ⟨rfl, rfl⟩ | h
      · simp
      · exact List.mem_cons_of_mem _ (ih h)

/-- C3 (amended): buildRoadGraph does not skip edges between identical
consecutive coordinates — whenever two consecutive coordinates of an input
route quantize to the same 5-decimal key, the built road graph contains a
self-loop at the node assigned to that key, for every distance function
(and the stored distance is that of the coordinate pair, which is 0 for
identical coordinates, as the counterexample shows concretely). -/
theorem buildRoadGraph_self_loop (dist : Coord → Coord → ℚ)
    (routes : List RouteInput) (r : RouteInput) (c1 c2 : Coord)
    (hr : r ∈ routes) (hpair : (c1, c2) ∈ consecutivePairs r.coordinates)
    (hkey : coordKey c1 = coordKey c2) :
    ∃ n, lookupA (buildRoadGraph dist routes).coordinateToNodeId
        (coordKey c1) = some n ∧
      SelfLoopAt (buildRoadGraph dist routes).roadGraph n := by
  have hrw : buildRoadGraph dist routes = routes.foldl
      (fun st route => (consecutivePairs route.coordinates).foldl (addEdge dist) st)
      (routes.foldl (fun st route => route.coordinates.foldl addNode st)
        initialBuildState) := rfl
  rw [hrw]
  have hc1 : c1 ∈ r.coordinates := consecutivePairs_mem_left _ _ _ hpair
  set st1 := routes.foldl
    (fun st route => route.coordinates.foldl addNode st) initialBuildState
    with hst1
  have hInst : NodesInstalled st1 :=
    foldlPreserves _ NodesInstalled
      (fun s route h => foldlPreserves addNode NodesInstalled
        (fun s c h => addNode_nodesInstalled s c h) route.coordinates s h)
      routes initialBuildState
      (fun k n hk => by simp [initialBuildState, lookupA] at hk)
  have hKey : (lookupA st1.coordinateToNodeId (coordKey c1)).isSome :=
    foldlEstablishes _ r routes (fun _ => True)
      (fun st => (lookupA st.coordinateToNodeId (coordKey c1)).isSome)
      hr (fun _ _ _ => trivial)
      (fun s route h => foldlPreserves addNode _
        (fun s c h => addNode_assigned_preserved s c _ h) route.coordinates s h)
      (fun s _ => foldlEstablishes addNode c1 r.coordinates (fun _ => True) _
        hc1 (fun _ _ _ => trivial)
        (fun s c h => addNode_assigned_preserved s c _ h)
        (fun s _ => addNode_assigns s c1) s trivial)
      initialBuildState trivial
  obtain ⟨n, hn⟩ := Option.isSome_iff_exists.mp hKey
  have hg : (lookupA st1.roadGraph n).isSome := hInst _ _ hn
  have hP2step : ∀ (s : BuildState) (p : Coord × Coord),
      (lookupA s.coordinateToNodeId (coordKey c1) = some n ∧
        (lookupA s.roadGraph n).isSome = true) →
      lookupA (addEdge dist s p).coordinateToNodeId (coordKey c1) = some n ∧
        (lookupA (addEdge dist s p).roadGraph n).isSome = true :=
    fun s p hp => ⟨by rw [addEdge_coordinateToNodeId]; exact hp.1,
      addEdge_roadGraph_isSome dist s p n hp.2⟩
  have hQstep : ∀ (s : BuildState) (p : Coord × Coord),
      (lookupA s.coordinateToNodeId (coordKey c1) = some n ∧
        SelfLoopAt s.roadGraph n) →
      lookupA (addEdge dist s p).coordinateToNodeId (coordKey c1) = some n ∧
        SelfLoopAt (addEdge dist s p).roadGraph n :=
    fun s p hp => ⟨by rw [addEdge_coordinateToNodeId]; exact hp.1,
      addEdge_selfLoopAt dist s p n hp.2⟩
  have hEstep : ∀ s : BuildState,
      (lookupA s.coordinateToNodeId (coordKey c1) = some n ∧
        (lookupA s.roadGraph n).isSome = true) →
      lookupA (addEdge dist s (c1, c2)).coordinateToNodeId (coordKey c1) =
          some n ∧
        SelfLoopAt (addEdge dist s (c1, c2)).roadGraph n :=
    fun s hp => ⟨by rw [addEdge_coordinateToNodeId]; exact hp.1,
      addEdge_creates_selfLoop dist s c1 c2 n hkey hp.1 hp.2⟩
  have main := foldlEstablishes
    (fun st route => (consecutivePairs route.coordinates).foldl (addEdge dist) st)
    r routes
    (fun st => lookupA st.coordinateToNodeId (coordKey c1) = some n ∧
      (lookupA st.roadGraph n).isSome = true)
    (fun st => lookupA st.coordinateToNodeId (coordKey c1) = some n ∧
      SelfLoopAt st.roadGraph n)
    hr
    (fun s route h => foldlPreserves (addEdge dist) _ hP2step
      (consecutivePairs route.coordinates) s h)
    (fun s route h => foldlPreserves (addEdge dist) _ hQstep
      (consecutivePairs route.coordinates) s h)
    (fun s h => foldlEstablishes (addEdge dist) (c1, c2)
      (consecutivePairs r.coordinates)
      (fun st => lookupA st.coordinateToNodeId (coordKey c1) = some n ∧
        (lookupA st.roadGraph n).isSome = true)
      (fun st => lookupA st.coordinateToNodeId (coordKey c1) = some n ∧
        SelfLoopAt st.roadGraph n)
      hpair hP2step hQstep hEstep s h)
    st1 ⟨hn, hg⟩
  exact ⟨n, main.1, main.2⟩

theorem buildRoadGraph_self_loop_witness :
    ∃ n, lookupA (buildRoadGraph flatDist [degenerateRoute]).coordinateToNodeId
        (coordKey ⟨0, 0⟩) = some n ∧
      SelfLoopAt (buildRoadGraph flatDist [degenerateRoute]).roadGraph n :=
  buildRoadGraph_self_loop flatDist [degenerateRoute] degenerateRoute
    ⟨0, 0⟩ ⟨0, 0⟩ (by simp)
    (by simp [degenerateRoute, consecutivePairs]) rfl

theorem getAQI_caches_result (o : Oracles) (lat lng t0 : ℚ) (s0 : AQIState)
    (r1 : AQIData) (s1 : AQIState)
    (h : getAQI o lat lng false t0 s0 = (r1, s1)) :
    ∃ ts, lookupA s1.aqiCache.cache (getTileKey lat lng) = some ⟨r1, ts⟩ := by
  unfold getAQI SimpleCacheQ.get at h
  simp only [Bool.false_eq_true, if_false] at h
  rcases hl : lookupA s0.aqiCache.cache (getTileKey lat lng) with _ | item <;>
    rw [hl] at h
  · simp only at h
    obtain ⟨rfl, rfl⟩ := Prod.mk.injEq .. ▸ h
    refine ⟨t0, ?_⟩
    simp [SimpleCacheQ.set, lookupA_mapSet_self]
  · by_cases hexp : t0 - item.timestamp > s0.aqiCache.ttl <;>
      simp only [hexp, if_true, if_false] at h
    · obtain ⟨rfl, rfl⟩ := Prod.mk.injEq .. ▸ h
      refine ⟨t0, ?_⟩
      simp [SimpleCacheQ.set, lookupA_mapSet_self]
    · obtain ⟨rfl, rfl⟩ := Prod.mk.injEq .. ▸ h
      exact ⟨item.timestamp, hl⟩

/-- C6: after a lookup getAQI o lat lng false t0 s0 = (r1, s1), any second
lookup at a time t1 at which the cached tile entry's age is within the
30-minute TTL returns the identical aggregated value r1 and leaves the
state unchanged — in particular the per-provider request counters of s1 do
not increase, i.e. no provider call is issued. -/
theorem getAQI_second_lookup_within_ttl (o : Oracles) (lat lng t0 t1 : ℚ)
    (s0 s1 : AQIState) (r1 : AQIData) (entry : CacheEntry)
    (hfirst : getAQI o lat lng false t0 s0 = (r1, s1))
    (hentry : lookupA s1.aqiCache.cache (getTileKey lat lng) = some entry)
    (hage : ¬ t1 - entry.timestamp > s1.aqiCache.ttl) :
    entry.value = r1 ∧ getAQI o lat lng false t1 s1 = (r1, s1) := by
  obtain ⟨ts, hts⟩ := getAQI_caches_result o lat lng t0 s0 r1 s1 hfirst
  rw [hentry] at hts
  injection hts with hts
  subst hts
  refine ⟨rfl, ?_⟩
  unfold getAQI SimpleCacheQ.get
  simp only [Bool.false_eq_true, if_false]
  rw [hentry]
  simp only [hage, if_true, if_false]

theorem getAQI_second_lookup_within_ttl_witness :
    (⟨fallbackAQI, 0⟩ : CacheEntry).value = fallbackAQI ∧
    getAQI failingOracles 0 0 false 100 cachedState =
      (fallbackAQI, cachedState) := by
  have hkey : getTileKey 0 0 = (0, 0) := by
    norm_num [getTileKey]
  have hfirst : getAQI failingOracles 0 0 false 10 cachedState =
      (fallbackAQI, cachedState) := by
    unfold getAQI SimpleCacheQ.get
    rw [hkey]
    norm_num [cachedState, lookupA]
  refine getAQI_second_lookup_within_ttl failingOracles 0 0 10 100
    cachedState cachedState fallbackAQI ⟨fallbackAQI, 0⟩ hfirst ?_ ?_
  · rw [hkey]
    simp [cachedState, lookupA]
  · norm_num [cachedState]
